import Mathlib

/-!
Verification development for the exesql repository.

Shallow embedding of the result scorer (`eval.py`), the SQLite executor
(`run_sqlite.py`), the Postgres table-name rewriter and result writer
(`run_postgres.py`), the MySQL/Oracle orchestrators (`run_mysql.py`,
`run_oracle.py`) and the per-engine migrator insert loops and type
mappers (`run_mysql.py`, `run_oracle.py`, `sqlite2sqlserver.py`).
-/

namespace ExeSql

/-! ### Value model for `eval.py`

Python values produced by `ast.literal_eval` on a result-file field:
integers, floats (modelled as rationals), strings and `None`. -/

inductive PyVal where
  | vint (n : Int)
  | vfloat (q : ℚ)
  | vstr (s : String)
  | vnone
  deriving DecidableEq

/-- Python `str.strip()` (on the ASCII whitespace fragment). -/
def strTrim (s : String) : String :=
  String.mk (((s.toList.dropWhile Char.isWhitespace).reverse.dropWhile
    Char.isWhitespace).reverse)

/-- Python `str.upper()` (ASCII fragment, character by character). -/
def strUpper (s : String) : String := String.mk (s.toList.map Char.toUpper)

/-- Python `str.lower()` (ASCII fragment, character by character). -/
def strLower (s : String) : String := String.mk (s.toList.map Char.toLower)

/-- Fold a digit list into a natural number. -/
def digitsToNat (ds : List Char) : Nat :=
  ds.foldl (fun a c => a * 10 + (c.toNat - 48)) 0

/-- Exponent tail of a float literal (after the letter e). -/
def parseExpTail (sign mant : ℚ) (r : List Char) : Option ℚ :=
  let es : Int × List Char :=
    match r with
    | '+' :: t => (1, t)
    | '-' :: t => (-1, t)
    | t => (1, t)
  let ed := es.2.takeWhile Char.isDigit
  if ed.isEmpty then none
  else if (es.2.drop ed.length).isEmpty then
    some (sign * mant * (10 : ℚ) ^ (es.1 * (digitsToNat ed : Int)))
  else none

/-- Model of Python `float(s)` on the decimal-literal fragment:
surrounding whitespace, optional sign, digits with an optional
fractional part and an optional exponent.  (`inf`, `nan` and underscore
separators lie outside the rational model.) -/
def parseFloat (s : String) : Option ℚ :=
  let cs0 := (strTrim s).toList
  let sc : ℚ × List Char :=
    match cs0 with
    | '+' :: r => (1, r)
    | '-' :: r => (-1, r)
    | r => (1, r)
  let ip := sc.2.takeWhile Char.isDigit
  let cs1 := sc.2.drop ip.length
  let fpr : List Char × List Char :=
    match cs1 with
    | '.' :: r => (r.takeWhile Char.isDigit, r.drop (r.takeWhile Char.isDigit).length)
    | r => ([], r)
  if ip.isEmpty && fpr.1.isEmpty then none
  else
    let mant : ℚ := (digitsToNat ip : ℚ) + (digitsToNat fpr.1 : ℚ) / ((10 : ℚ) ^ fpr.1.length)
    match fpr.2 with
    | [] => some (sc.1 * mant)
    | 'e' :: r => parseExpTail sc.1 mant r
    | 'E' :: r => parseExpTail sc.1 mant r
    | _ => none

/-- Round-half-to-even on rationals, matching Python's `round`. -/
def roundHalfEven (q : ℚ) : Int :=
  let n := ⌊q⌋
  let r := q - n
  if r < 1/2 then n
  else if 1/2 < r then n + 1
  else if n % 2 = 0 then n else n + 1

/-- `round(x, 8)` as used by `normalize_value`. -/
def roundTo8 (q : ℚ) : ℚ := (roundHalfEven (q * 100000000) : ℚ) / 100000000

/-- A value after `normalize_value`: a rounded number (a Python float)
or a stripped string. -/
inductive NVal where
  | nnum (q : ℚ)
  | nstr (s : String)
  deriving DecidableEq

/-- `normalize_value` from `eval.py` lines 10-20: try `float(value)` and
round to 8 decimal places; on failure return `str(value).strip()`.
`float` succeeds on ints, floats and numeric strings; it raises on
`None` (`str(None)` is `"None"`) and on non-numeric strings. -/
def normalize_value : PyVal → NVal
  | .vint n => .nnum (roundTo8 n)
  | .vfloat q => .nnum (roundTo8 q)
  | .vstr s =>
    match parseFloat s with
    | some q => .nnum (roundTo8 q)
    | none => .nstr (strTrim s)
  | .vnone => .nstr "None"

/-- `normalize_value` applied a second time, to an already-normalized
value, as done inside `normalize_tuple_order_insensitive`. -/
def renormalize : NVal → NVal
  | .nnum q => .nnum (roundTo8 q)
  | .nstr s =>
    match parseFloat s with
    | some q => .nnum (roundTo8 q)
    | none => .nstr (strTrim s)

/-- Sort order mirroring Python's key `(str(type(x)), str(x))`: floats
sort before strings, and equal-kind values compare by an injective key.
Python compares same-kind values by their textual representation, which
is injective on floats and on strings; any injective key produces the
same canonical sorted form, so numbers are compared numerically here and
strings lexicographically. -/
def nleB : NVal → NVal → Bool
  | .nnum a, .nnum b => decide (a ≤ b)
  | .nnum _, .nstr _ => true
  | .nstr _, .nnum _ => false
  | .nstr a, .nstr b => decide (a ≤ b)

def nle (a b : NVal) : Prop := nleB a b = true

instance : DecidableRel nle := fun a b => inferInstanceAs (Decidable (nleB a b = true))

instance : IsTotal NVal nle :=
  ⟨by
    intro a b
    cases a <;> cases b <;> simp [nle, nleB] <;> exact le_total _ _⟩

instance : IsTrans NVal nle :=
  ⟨by
    intro a b c hab hbc
    cases a <;> cases b <;> cases c <;>
      simp_all [nle, nleB] <;> exact le_trans hab hbc⟩

instance : IsAntisymm NVal nle :=
  ⟨by
    intro a b hab hba
    cases a <;> cases b <;> simp_all [nle, nleB]
    · exact le_antisymm hab hba
    · exact String.ext (le_antisymm hab hba)⟩

/-- Python's stable `sorted` on normalized values. -/
def nsort (l : List NVal) : List NVal := l.insertionSort nle

/-- One element of the literal-eval'd list on a result line: a row tuple
or a bare scalar (`read_result_file` wraps bare scalars in a 1-tuple). -/
inductive Item where
  | itup (t : List PyVal)
  | iscalar (v : PyVal)
  deriving DecidableEq

/-- The tuple a given item is treated as (`if not isinstance(tup, tuple):
tup = (tup,)`). -/
def tupOfItem : Item → List PyVal
  | .itup t => t
  | .iscalar v => [v]

/-- The tuple stored in the per-index set by `read_result_file`:
elementwise `normalize_value`, not yet sorted. -/
def normLine (it : Item) : List NVal := (tupOfItem it).map normalize_value

/-- The set of normalized tuples `read_result_file` builds for one
parseable line. -/
def entryOfItems (items : List Item) : Finset (List NVal) :=
  (items.map normLine).toFinset

/-- A stored entry: a row-set, or the raw (stripped) string when
`ast.literal_eval` failed. -/
inductive EntryVal where
  | eset (s : Finset (List NVal))
  | eraw (s : String)
  deriving DecidableEq

/-- One input line of a result file with at least two tab-separated
fields: the index field, the raw second field, and the outcome of
`ast.literal_eval` on the stripped second field.  The literal parser is
an external library function, so its verdict is part of the input. -/
structure RLine where
  index : String
  payload : String
  parsed : Option (List Item)
  deriving DecidableEq

/-- What `read_result_file` stores for one line. -/
def entryOfLine (l : RLine) : EntryVal :=
  match l.parsed with
  | some items => .eset (entryOfItems items)
  | none => .eraw (strTrim l.payload)

/-- Python-dict insertion: overwrite in place when the key exists,
otherwise append. -/
def upsert : List (String × EntryVal) → String → EntryVal → List (String × EntryVal)
  | [], k, v => [(k, v)]
  | (k', v') :: rest, k, v =>
    if k' = k then (k, v) :: rest else (k', v') :: upsert rest k v

/-- `read_result_file` from `eval.py` lines 22-50, as the association
list (in Python dict insertion order) it produces. -/
def read_result_file (lines : List RLine) : List (String × EntryVal) :=
  lines.foldl (fun d l => upsert d (strTrim l.index) (entryOfLine l)) []

/-- `dict.get`: the value at a key, or `none`. -/
def dlookup (d : List (String × EntryVal)) (k : String) : Option EntryVal :=
  (d.find? (fun e => e.1 == k)).map (fun e => e.2)

/-- `normalize_tuple_order_insensitive` from `eval.py` lines 67-75:
re-normalize each element and sort. -/
def normalize_tuple_order_insensitive (t : List NVal) : List NVal :=
  nsort (t.map renormalize)

/-- The per-entry match test inside `compute_exec_score` lines 90-102:
two row-sets compare as sets of internally-sorted normalized tuples; any
other combination falls through to Python's `==` (false between a set
and a string, false against `None` when the predicted entry is absent,
string equality between two raw strings). -/
def entryMatches (g : EntryVal) (p : Option EntryVal) : Bool :=
  match p with
  | none => false
  | some pv =>
    match g, pv with
    | .eset gs, .eset ps =>
        gs.image normalize_tuple_order_insensitive ==
          ps.image normalize_tuple_order_insensitive
    | .eraw s, .eraw t => s == t
    | .eset _, .eraw _ => false
    | .eraw _, .eset _ => false

/-- `compute_exec_score` from `eval.py` lines 77-105, returning
`(score, match_count, total)`. -/
def compute_exec_score (gold pred : List RLine) : ℚ × ℕ × ℕ :=
  let g := read_result_file gold
  let p := read_result_file pred
  let total := g.length
  if total = 0 then (0, 0, 0)
  else
    let mc := (g.filter (fun e => entryMatches e.2 (dlookup p e.1))).length
    ((mc : ℚ) / (total : ℚ), mc, total)

/-! ### `run_sqlite.py`: query-text transformation and output writer -/

/-- Is `p` an initial run of `l`?  (Own definition of the prefix test on
character lists.) -/
def leadsWith : List Char → List Char → Bool
  | [], _ => true
  | _ :: _, [] => false
  | a :: as, b :: bs => a == b && leadsWith as bs

/-- Is `pat` a contiguous segment of `l`?  Models Python's `in` on
strings. -/
def isSegmentOf (pat : List Char) : List Char → Bool
  | [] => pat.isEmpty
  | c :: rest => leadsWith pat (c :: rest) || isSegmentOf pat rest

def strContainsSub (s pat : String) : Bool := isSegmentOf pat.toList s.toList

/-- Replace every leftmost, non-overlapping occurrence of `pat` by
`rep`, as Python's `str.replace`.  `fuel` bounds the recursion; callers
pass the string length, which suffices because every step consumes at
least one character (`pat` is nonempty at all call sites). -/
def replaceFuel (pat rep : List Char) : Nat → List Char → List Char
  | _, [] => []
  | 0, s => s
  | fuel + 1, c :: rest =>
    if leadsWith pat (c :: rest) && !pat.isEmpty then
      rep ++ replaceFuel pat rep fuel ((c :: rest).drop pat.length)
    else
      c :: replaceFuel pat rep fuel rest

def strReplace (s pat rep : String) : String :=
  String.mk (replaceFuel pat.toList rep.toList s.toList.length s.toList)

/-- The query-text transformation in `execute_single_sql`
(`run_sqlite.py` lines 41-42): when `"LIKE" in sql.upper()`, the
executed text is the input with every `LIKE` replaced by `GLOB` and then
every `%` replaced by `*`; otherwise the input itself. -/
def execute_single_sql_text (sql : String) : String :=
  if strContainsSub (strUpper sql) "LIKE" then
    strReplace (strReplace sql "LIKE" "GLOB") "%" "*"
  else sql

/-- One input task of `run_sql_parallel` (a well-formed
`index<TAB>sql<TAB>db_id` line, index already through `int(...)`). -/
structure STask where
  index : Int
  sql : String
  dbId : String
  deriving DecidableEq

/-- Worker outcome: fetched rows serialized by Python `str`, or the
exception text. -/
inductive SOutcome where
  | ok (data : String)
  | err (msg : String)
  deriving DecidableEq

/-- One completed result, tagged with its task index. -/
abbrev SRes := Int × SOutcome

/-- `all_results.sort(key=lambda r: r['index'])`. -/
def sresLe (a b : SRes) : Prop := a.1 ≤ b.1

instance : DecidableRel sresLe := fun a b => Int.decLe a.1 b.1

instance : IsTotal SRes sresLe := ⟨fun a b => Int.le_total a.1 b.1⟩

instance : IsTrans SRes sresLe := ⟨fun _ _ _ h h' => le_trans h h'⟩

/-- One output line (`run_sqlite.py` lines 109-115). -/
def formatSqliteLine : SRes → String
  | (i, .ok d) => toString i ++ "\t" ++ d ++ "\n"
  | (i, .err m) => toString i ++ "\tError: " ++ m ++ "\n"

/-- The save step of `run_sql_parallel` (`run_sqlite.py` lines 102-118):
sort the completed results (which arrive in arbitrary completion order)
by index and format each as one output line. -/
def run_sql_parallel_output (completed : List SRes) : List String :=
  (completed.insertionSort sresLe).map formatSqliteLine

/-! ### `run_postgres.py`: result writer -/

/-- One query triple of the postgres runner (the index is kept as a
string there). -/
structure PTask where
  index : String
  sql : String
  dbId : String

/-- Per-query outcome in `run_postgres_and_save_results`: fetched rows
serialized by Python `str`, or an exception message together with the
`modified_sql` in scope when the exception was raised. -/
inductive POutcome where
  | ok (res : String)
  | err (msg modSql : String)

/-- The string appended to `results` for one query
(`run_postgres.py` lines 116-150). -/
def formatPgEntry (t : PTask) : POutcome → String
  | .ok r => t.index ++ "\t" ++ r ++ "\n"
  | .err e m =>
      "Index " ++ t.index ++ ":\nError: " ++ e ++ "\nOriginal SQL: " ++ t.sql ++
        "\nModified SQL: " ++ m ++ "\n"

/-- The full output file written by `run_postgres_and_save_results`
(lines 116-154): entries in input order, concatenated. -/
def run_postgres_output (tasks : List PTask) (outcome : PTask → POutcome) : String :=
  String.join (tasks.map (fun t => formatPgEntry t (outcome t)))

/-! ### `run_mysql.py` / `run_oracle.py`: phase-2 orchestration -/

/-- A query triple `(index, sql, db_id)` after upstream parsing. -/
abbrev Query := Int × String × String

/-- Phase-2 task list: only queries whose `db_id` did not fail migration
are handed to workers (`run_mysql.py` line 173, `run_oracle.py` line
197). -/
def executionTasks (questions : List Query) (failed : List String) : List Query :=
  questions.filter (fun q => !failed.contains q.2.2)

/-- One result row `(index, succeeded, payload)`. -/
abbrev ExecRes := Int × Bool × String

/-- Error text synthesized by `run_mysql.py` line 184. -/
def mysqlMigrationMsg (db : String) : String :=
  "Database '" ++ db ++ "' failed to migrate."

/-- Error text synthesized by `run_oracle.py` line 208. -/
def oracleMigrationMsg (db : String) : String :=
  "Execution skipped because database '" ++ db ++ "' failed to migrate."

/-- The loop appending synthesized error entries for queries whose
database failed migration. -/
def migrationErrorEntries (msgOf : String → String) (questions : List Query)
    (failed : List String) : List ExecRes :=
  (questions.filter (fun q => failed.contains q.2.2)).map
    (fun q => (q.1, false, msgOf q.2.2))

/-- `all_results` just before sorting: worker results plus synthesized
migration-failure errors. -/
def phase2AllResults (msgOf : String → String) (questions : List Query)
    (failed : List String) (completed : List ExecRes) : List ExecRes :=
  completed ++ migrationErrorEntries msgOf questions failed

def execResLe (a b : ExecRes) : Prop := a.1 ≤ b.1

instance : DecidableRel execResLe := fun a b => Int.decLe a.1 b.1

/-- One output line (`run_mysql.py` lines 190-195, `run_oracle.py` lines
215-220; both use the same format). -/
def formatExecLine : ExecRes → String
  | (i, true, d) => toString i ++ "\t" ++ d ++ "\n"
  | (i, false, d) => toString i ++ "\tError: " ++ d ++ "\n"

/-- The written result file of phase 2: all results sorted by index,
formatted. -/
def phase2Output (msgOf : String → String) (questions : List Query)
    (failed : List String) (completed : List ExecRes) : List String :=
  ((phase2AllResults msgOf questions failed completed).insertionSort execResLe).map
    formatExecLine

/-! ### Migrator insert loops (`run_mysql.py`, `run_oracle.py`,
`sqlite2sqlserver.py`) -/

/-- Abstract table rows. -/
abbrev Row := Int

/-- MySQL per-table insert (`run_mysql.py` lines 59-78): skip empty
tables; try the bulk `executemany`; on failure insert row by row,
silently skipping rows that individually fail.  `bulkOk` and `rowOk` are
the (external) database engine's verdicts. -/
def mysqlTableInsert (rows : List Row) (bulkOk : Bool) (rowOk : Row → Bool) : List Row :=
  if rows.isEmpty then []
  else if bulkOk then rows
  else rows.filter rowOk

/-- Oracle migration insert loop (`run_oracle.py` lines 64-78): the bulk
`executemany` has no fallback, so a bulk failure raises and aborts the
whole database's migration (caught at line 80 and returned as a
db-level error). -/
def oracleMigrateTables (bulkOk : List Row → Bool) :
    List (List Row) → Except String (List (List Row))
  | [] => .ok []
  | t :: ts =>
    if t.isEmpty then (oracleMigrateTables bulkOk ts).map (fun r => [] :: r)
    else if bulkOk t then (oracleMigrateTables bulkOk ts).map (fun r => t :: r)
    else .error "bulk insert failed"

/-- SQL Server per-table insert (`sqlite2sqlserver.py` lines 114-124):
on bulk failure the transaction is rolled back and the whole table's
data is skipped; there is no row-by-row fallback. -/
def sqlserverTableInsert (rows : List Row) (bulkOk : Bool) : List Row :=
  if rows.isEmpty then [] else if bulkOk then rows else []

/-! ### Type mappers -/

/-- `type_mapping` from `run_mysql.py` lines 38-41. -/
def mysql_type_mapping : List (String × String) :=
  [("INTEGER", "BIGINT"), ("REAL", "DOUBLE"), ("TEXT", "TEXT"),
   ("BLOB", "BLOB"), ("NUMERIC", "DECIMAL(38,10)"), ("BOOLEAN", "TINYINT(1)")]

/-- `type_mapping.get(col[2].upper(), "TEXT")` from `run_mysql.py` line
53. -/
def mysqlMapType (s : String) : String :=
  (mysql_type_mapping.lookup (strUpper s)).getD "TEXT"

/-- `type_mapping` from `run_oracle.py` lines 32-35. -/
def oracle_type_mapping : List (String × String) :=
  [("INTEGER", "NUMBER(10)"), ("TEXT", "VARCHAR2(4000)"), ("REAL", "BINARY_DOUBLE"),
   ("BLOB", "BLOB"), ("NUMERIC", "NUMBER(10,2)"), ("BOOLEAN", "NUMBER(1)")]

/-- `type_mapping.get(col[2].upper(), "VARCHAR2(4000)")` from
`run_oracle.py` line 58. -/
def oracleMapType (s : String) : String :=
  (oracle_type_mapping.lookup (strUpper s)).getD "VARCHAR2(4000)"

/-- `translate_type` from `sqlite2sqlserver.py` lines 14-34 (`none`
models a `None` column type). -/
def translate_type : Option String → String
  | none => "NVARCHAR(MAX)"
  | some s =>
    let u := strUpper s
    if strContainsSub u "INT" then "BIGINT"
    else if strContainsSub u "CHAR" || strContainsSub u "TEXT" || strContainsSub u "CLOB" then
      "NVARCHAR(MAX)"
    else if strContainsSub u "REAL" || strContainsSub u "FLOAT" || strContainsSub u "DOUBLE" then
      "FLOAT"
    else if strContainsSub u "BLOB" then "VARBINARY(MAX)"
    else if strContainsSub u "NUMERIC" then "DECIMAL(38, 9)"
    else if strContainsSub u "DATE" then "DATETIME2"
    else "NVARCHAR(MAX)"

/-! ### `prefix_table_names` (`run_postgres.py` lines 8-30)

An executable model of `re.sub` with the IGNORECASE pattern
(word boundary)(FROM|JOIN|UPDATE|INTO|DELETE FROM|TABLE|INSERT INTO|VALUES)
followed by one-or-more whitespace, an optional backquote-or-doublequote,
one-or-more word characters, and the matching optional quote; the
replacer lowercases the table name and inserts the schema prefix unless
the matched identifier contains a dot.  For this pattern the regex
engine's backtracking is deterministic: a quoted identifier without its
closing quote cannot be rescued by shrinking the word run (the
backreference needs the quote character, which is not a word character)
nor by taking the quote group empty (the word run would then start at
the quote character), so such positions simply fail to match. -/

/-- Python regex word character (ASCII fragment). -/
def isWordChar (c : Char) : Bool := c.isAlphanum || c == '_'

/-- The backquote character, U+0060. -/
def backquote : Char := Char.ofNat 96

/-- The keyword alternation, in the pattern's order. -/
def pgKeywords : List (List Char) :=
  ["FROM".toList, "JOIN".toList, "UPDATE".toList, "INTO".toList,
   "DELETE FROM".toList, "TABLE".toList, "INSERT INTO".toList, "VALUES".toList]

/-- Case-insensitive literal match of `kw` (given uppercase) at the head
of `s`: the matched original characters and the rest. -/
def matchCI (kw : List Char) (s : List Char) : Option (List Char × List Char) :=
  if (s.take kw.length).map Char.toUpper = kw then some (s.take kw.length, s.drop kw.length)
  else none

/-- First keyword of the alternation matching at the head of `s`. -/
def firstKeywordCI : List (List Char) → List Char → Option (List Char × List Char)
  | [], _ => none
  | kw :: kws, s =>
    match matchCI kw s with
    | some r => some r
    | none => firstKeywordCI kws s

/-- Attempt the whole pattern at the current position (the word-boundary
test is done by the caller).  Returns the original keyword text, the
optional quote, the identifier, the rest of the input after the match,
and the last matched character (for the next boundary test). -/
def pgTryMatch (s : List Char) :
    Option (List Char × Option Char × List Char × List Char × Char) :=
  match firstKeywordCI pgKeywords s with
  | none => none
  | some (kwOrig, r1) =>
    let ws := r1.takeWhile Char.isWhitespace
    if ws.isEmpty then none
    else
      let r2 := r1.drop ws.length
      match r2 with
      | [] => none
      | q :: r3 =>
        if q = backquote || q = '"' then
          let w := r3.takeWhile isWordChar
          if w.isEmpty then none
          else
            match r3.drop w.length with
            | q' :: r4 => if q' = q then some (kwOrig, some q, w, r4, q) else none
            | [] => none
        else
          let w := r2.takeWhile isWordChar
          if w.isEmpty then none
          else some (kwOrig, none, w, r2.drop w.length, w.getLastD ' ')

/-- The replacer of `prefix_table_names`: keep the whole match when the
identifier contains a dot (unreachable, since the word run cannot
contain a dot), else emit keyword, one space, schema prefix and the
lowercased identifier in its original quoting. -/
def pgReplacement (schemaLower kwOrig : List Char) (q : Option Char)
    (w whole : List Char) : List Char :=
  let table := w.map Char.toLower
  if table.contains '.' then whole
  else
    let qs := match q with | some c => [c] | none => []
    kwOrig ++ [' '] ++ schemaLower ++ ['.'] ++ qs ++ table ++ qs

/-- The `re.sub` scan: at each position with a word boundary, try the
pattern; on a match emit the replacement and continue after the match,
otherwise copy one character.  `fuel` bounds recursion; each step
consumes at least one character, so the input length suffices. -/
def pgScan (schemaLower : List Char) : Nat → Option Char → List Char → List Char
  | _, _, [] => []
  | 0, _, s => s
  | fuel + 1, prev, c :: rest =>
    let boundary :=
      match prev with
      | none => true
      | some p => !isWordChar p
    if boundary then
      match pgTryMatch (c :: rest) with
      | some (kwOrig, q, w, rest', lastC) =>
        let whole := (c :: rest).take ((c :: rest).length - rest'.length)
        pgReplacement schemaLower kwOrig q w whole ++ pgScan schemaLower fuel (some lastC) rest'
      | none => c :: pgScan schemaLower fuel (some c) rest
    else c :: pgScan schemaLower fuel (some c) rest

/-- `prefix_table_names(sql_query, schema_name)` from `run_postgres.py`:
lowercase the schema name, then substitute every pattern match. -/
def prefix_table_names (sqlQuery schemaName : String) : String :=
  String.mk (pgScan (strLower schemaName).toList sqlQuery.toList.length none sqlQuery.toList)

unseal Rat.mul Rat.add Rat.sub Rat.inv

/-! ### Supporting lemmas -/

/-- Sorting with the (total, transitive, antisymmetric) normalized-value
order is canonical: permuted inputs sort to the same list. -/
theorem nsort_eq_of_perm {l₁ l₂ : List NVal} (h : l₁.Perm l₂) : nsort l₁ = nsort l₂ :=
  List.eq_of_perm_of_sorted
    ((List.perm_insertionSort nle l₁).trans (h.trans (List.perm_insertionSort nle l₂).symm))
    (List.sorted_insertionSort nle l₁) (List.sorted_insertionSort nle l₂)

/-- The internally-sorted normal form of a tuple is invariant under
permutation of the tuple's elements. -/
theorem ntoi_eq_of_perm {t₁ t₂ : List NVal} (h : t₁.Perm t₂) :
    normalize_tuple_order_insensitive t₁ = normalize_tuple_order_insensitive t₂ :=
  nsort_eq_of_perm (h.map renormalize)

/-- Permuting the elements inside each row tuple leaves the compared
image set unchanged. -/
theorem image_ntoi_eq_of_forall2 {l₁ l₂ : List Item}
    (h : List.Forall₂ (fun a b => (tupOfItem a).Perm (tupOfItem b)) l₁ l₂) :
    (entryOfItems l₁).image normalize_tuple_order_insensitive =
      (entryOfItems l₂).image normalize_tuple_order_insensitive := by
  induction h with
  | nil => rfl
  | cons hab _ ih =>
    simp only [entryOfItems, List.map_cons, List.toFinset_cons, Finset.image_insert] at ih ⊢
    rw [ih]
    have : normalize_tuple_order_insensitive (normLine _) =
        normalize_tuple_order_insensitive (normLine _) :=
      ntoi_eq_of_perm (hab.map normalize_value)
    rw [this]

/-- The match verdict against any entry depends only on the gold
row-set's image under tuple normalization. -/
theorem entryMatches_congr_gold {A B : Finset (List NVal)}
    (h : A.image normalize_tuple_order_insensitive = B.image normalize_tuple_order_insensitive)
    (e : Option EntryVal) :
    entryMatches (.eset A) e = entryMatches (.eset B) e := by
  rcases e with _ | e
  · rfl
  · cases e <;> simp [entryMatches, h]

/-- The match verdict depends only on the predicted row-set's image
under tuple normalization. -/
theorem entryMatches_congr_pred {A B : Finset (List NVal)}
    (h : A.image normalize_tuple_order_insensitive = B.image normalize_tuple_order_insensitive)
    (g : EntryVal) :
    entryMatches g (some (.eset A)) = entryMatches g (some (.eset B)) := by
  cases g <;> simp [entryMatches, h]

/-! ### Claims -/

/-- C1: the claim states that the Reference Rewriter is idempotent and
leaves dot-qualified identifiers unchanged.  The code violates this: in
`prefix_table_names` the replacer's dot test can never fire, because the
identifier group matches word characters only, so the schema prefix
inserted by a first rewrite is itself prefixed again by a second
rewrite: `FROM t` becomes `FROM s1.t` and then `FROM s1.s1.t`. -/
theorem c1_rewrite_not_idempotent :
    prefix_table_names "FROM t" "s1" = "FROM s1.t" ∧
    prefix_table_names (prefix_table_names "FROM t" "s1") "s1" = "FROM s1.s1.t" ∧
    prefix_table_names (prefix_table_names "FROM t" "s1") "s1" ≠
      prefix_table_names "FROM t" "s1" :=
  ⟨by decide, by decide, by decide⟩

/-- C4: `normalize_value` converts every value that parses as a number
to a float rounded to 8 decimal places and otherwise returns the
stripped textual form; `3` and `3.00000000` are judged equal,
`3.000000001` and `3.000000002` are judged equal, and `3.0000001` and
`3.0000002` are judged unequal. -/
theorem c4_normalize_value :
    (∀ n : Int, normalize_value (.vint n) = .nnum (roundTo8 n)) ∧
    (∀ q : ℚ, normalize_value (.vfloat q) = .nnum (roundTo8 q)) ∧
    (∀ (s : String) (q : ℚ), parseFloat s = some q →
      normalize_value (.vstr s) = .nnum (roundTo8 q)) ∧
    (∀ s : String, parseFloat s = none → normalize_value (.vstr s) = .nstr (strTrim s)) ∧
    normalize_value (.vint 3) = normalize_value (.vfloat 3) ∧
    entryMatches (.eset (entryOfItems [.iscalar (.vint 3)]))
      (some (.eset (entryOfItems [.iscalar (.vfloat 3)]))) = true ∧
    normalize_value (.vfloat (3 + 1 / 1000000000)) =
      normalize_value (.vfloat (3 + 2 / 1000000000)) ∧
    normalize_value (.vfloat (3 + 1 / 10000000)) ≠
      normalize_value (.vfloat (3 + 2 / 10000000)) := by
  refine ⟨fun n => rfl, fun q => rfl, fun s q h => ?_, fun s h => ?_,
    by decide, by decide, by decide, by decide⟩
  · simp [normalize_value, h]
  · simp [normalize_value, h]

/-- Witness for C4 at concrete inputs: `"3.5"` parses as a number and is
rounded; `" x "` does not parse and is stripped. -/
theorem c4_witness :
    normalize_value (.vstr "3.5") = .nnum (roundTo8 (7 / 2)) ∧
    normalize_value (.vstr " x ") = .nstr "x" := by
  constructor
  · exact c4_normalize_value.2.2.1 "3.5" (7 / 2) (by decide)
  · have h := c4_normalize_value.2.2.2.1 " x " (by decide)
    rw [h]; decide

/-- C8: every type mapper is total and any source type outside the
lookup table (or matching no substring rule, for SQL Server) falls back
to the engine's most permissive text type. -/
theorem c8_type_mapper_fallback :
    (∀ s : String, mysql_type_mapping.lookup (strUpper s) = none → mysqlMapType s = "TEXT") ∧
    (∀ s : String, oracle_type_mapping.lookup (strUpper s) = none →
      oracleMapType s = "VARCHAR2(4000)") ∧
    translate_type none = "NVARCHAR(MAX)" ∧
    (∀ s : String,
      strContainsSub (strUpper s) "INT" = false →
      strContainsSub (strUpper s) "CHAR" = false →
      strContainsSub (strUpper s) "TEXT" = false →
      strContainsSub (strUpper s) "CLOB" = false →
      strContainsSub (strUpper s) "REAL" = false →
      strContainsSub (strUpper s) "FLOAT" = false →
      strContainsSub (strUpper s) "DOUBLE" = false →
      strContainsSub (strUpper s) "BLOB" = false →
      strContainsSub (strUpper s) "NUMERIC" = false →
      strContainsSub (strUpper s) "DATE" = false →
      translate_type (some s) = "NVARCHAR(MAX)") := by
  refine ⟨fun s h => ?_, fun s h => ?_, rfl, fun s h1 h2 h3 h4 h5 h6 h7 h8 h9 h10 => ?_⟩
  · simp [mysqlMapType, h]
  · simp [oracleMapType, h]
  · simp [translate_type, h1, h2, h3, h4, h5, h6, h7, h8, h9, h10]

/-- Witness for C8 at the concrete unknown type `"FANCY"`. -/
theorem c8_witness :
    mysqlMapType "FANCY" = "TEXT" ∧ oracleMapType "FANCY" = "VARCHAR2(4000)" ∧
    translate_type (some "FANCY") = "NVARCHAR(MAX)" :=
  ⟨c8_type_mapper_fallback.1 "FANCY" (by decide),
   c8_type_mapper_fallback.2.1 "FANCY" (by decide),
   c8_type_mapper_fallback.2.2.2 "FANCY" (by decide) (by decide) (by decide) (by decide)
     (by decide) (by decide) (by decide) (by decide) (by decide) (by decide)⟩

/-- C9: in the SQLite executor a query whose upper-cased text contains
`LIKE` is executed with every exact `LIKE` replaced by `GLOB` and every
`%` replaced by `*` (string literals included); a query without `LIKE`
in any case runs unchanged; lowercase `like` triggers the branch but is
not itself replaced. -/
theorem c9_like_glob_rewrite :
    (∀ sql : String, strContainsSub (strUpper sql) "LIKE" = false →
      execute_single_sql_text sql = sql) ∧
    (∀ sql : String, strContainsSub (strUpper sql) "LIKE" = true →
      execute_single_sql_text sql = strReplace (strReplace sql "LIKE" "GLOB") "%" "*") ∧
    execute_single_sql_text "SELECT a FROM t WHERE a LIKE '10%'" =
      "SELECT a FROM t WHERE a GLOB '10*'" ∧
    execute_single_sql_text "select a from t where a like '10%'" =
      "select a from t where a like '10*'" ∧
    execute_single_sql_text "SELECT '%LIKE%' FROM t" = "SELECT '*GLOB*' FROM t" ∧
    execute_single_sql_text "SELECT 100 % 7" = "SELECT 100 % 7" := by
  refine ⟨fun sql h => ?_, fun sql h => ?_, by decide, by decide, by decide, by decide⟩
  · simp [execute_single_sql_text, h]
  · simp [execute_single_sql_text, h]

/-- Witness for C9 at concrete inputs on both branches. -/
theorem c9_witness :
    execute_single_sql_text "SELECT 1" = "SELECT 1" ∧
    execute_single_sql_text "SELECT a FROM t WHERE a LIKE 'x'" =
      strReplace (strReplace "SELECT a FROM t WHERE a LIKE 'x'" "LIKE" "GLOB") "%" "*" :=
  ⟨c9_like_glob_rewrite.1 "SELECT 1" (by decide),
   c9_like_glob_rewrite.2.1 "SELECT a FROM t WHERE a LIKE 'x'" (by decide)⟩

/-- C10: a gold file with zero parsed entries yields `(0.0, 0, 0)`
rather than a division-by-zero error, and the score division is guarded
by a non-zero total. -/
theorem c10_zero_gold_guard :
    ∀ gold pred : List RLine,
      (read_result_file gold = [] → compute_exec_score gold pred = (0, 0, 0)) ∧
      ((compute_exec_score gold pred).2.2 = 0 → compute_exec_score gold pred = (0, 0, 0)) ∧
      ((compute_exec_score gold pred).2.2 ≠ 0 →
        (compute_exec_score gold pred).1 =
          ((compute_exec_score gold pred).2.1 : ℚ) / ((compute_exec_score gold pred).2.2 : ℚ)) := by
  intro gold pred
  by_cases h : (read_result_file gold).length = 0
  · refine ⟨fun _ => ?_, fun _ => ?_, fun hne => ?_⟩
    · simp [compute_exec_score, h]
    · simp [compute_exec_score, h]
    · simp [compute_exec_score, h] at hne
  · refine ⟨fun he => absurd (by simp [he]) h, fun hz => ?_, fun hne => ?_⟩
    · simp [compute_exec_score, h] at hz
    · simp [compute_exec_score, h]

/-- Witness for C10: the concrete empty gold file scores `(0, 0, 0)`. -/
theorem c10_witness : compute_exec_score [] [] = (0, 0, 0) :=
  (c10_zero_gold_guard [] []).1 rfl

/-- C2: a gold entry is matched iff both sides parse as row-sets whose
normalized, internally-sorted tuple sets are set-equal, or both are
unparseable with identical raw strings; a missing predicted index is
unmatched (never an error); the reported counts satisfy
`score = match_count / total` whenever the total is non-zero. -/
theorem c2_scorer_match_rule :
    (∀ (g : EntryVal) (p : Option EntryVal), entryMatches g p = true ↔
      ((∃ gs ps, g = .eset gs ∧ p = some (.eset ps) ∧
          gs.image normalize_tuple_order_insensitive =
            ps.image normalize_tuple_order_insensitive) ∨
       (∃ s, g = .eraw s ∧ p = some (.eraw s)))) ∧
    (∀ g : EntryVal, entryMatches g none = false) ∧
    (∀ gold pred : List RLine,
      (compute_exec_score gold pred).2.2 = (read_result_file gold).length ∧
      (compute_exec_score gold pred).2.1 =
        ((read_result_file gold).filter
          (fun e => entryMatches e.2 (dlookup (read_result_file pred) e.1))).length ∧
      ((read_result_file gold).length ≠ 0 →
        (compute_exec_score gold pred).1 =
          ((compute_exec_score gold pred).2.1 : ℚ) / ((compute_exec_score gold pred).2.2 : ℚ))) := by
  refine ⟨fun g p => ?_, fun g => ?_, fun gold pred => ?_⟩
  · rcases g with gs | s <;> rcases p with _ | pv
    · simp [entryMatches]
    · rcases pv with ps | t <;> simp [entryMatches]
    · simp [entryMatches]
    · rcases pv with ps | t
      · simp [entryMatches]
      · simp [entryMatches]
        exact eq_comm
  · cases g <;> rfl
  · by_cases h : (read_result_file gold).length = 0
    · have he : read_result_file gold = [] := List.length_eq_zero.mp h
      refine ⟨?_, ?_, fun hne => absurd h hne⟩ <;> simp [compute_exec_score, h, he]
    · refine ⟨?_, ?_, fun hne => ?_⟩ <;> simp [compute_exec_score, h]

/-- Witness for C2 at a concrete gold/predicted pair: one gold entry,
matched, so the reported score is `1 / 1`. -/
theorem c2_witness :
    ((read_result_file [RLine.mk "1" "[(1, 2)]" (some [.itup [.vint 1, .vint 2]])]).length ≠ 0) ∧
    (compute_exec_score [RLine.mk "1" "[(1, 2)]" (some [.itup [.vint 1, .vint 2]])]
        [RLine.mk "1" "[(2, 1)]" (some [.itup [.vint 2, .vint 1]])]).1 =
      ((compute_exec_score [RLine.mk "1" "[(1, 2)]" (some [.itup [.vint 1, .vint 2]])]
          [RLine.mk "1" "[(2, 1)]" (some [.itup [.vint 2, .vint 1]])]).2.1 : ℚ) /
        ((compute_exec_score [RLine.mk "1" "[(1, 2)]" (some [.itup [.vint 1, .vint 2]])]
            [RLine.mk "1" "[(2, 1)]" (some [.itup [.vint 2, .vint 1]])]).2.2 : ℚ) :=
  ⟨by decide,
   ((c2_scorer_match_rule.2.2
      [RLine.mk "1" "[(1, 2)]" (some [.itup [.vint 1, .vint 2]])]
      [RLine.mk "1" "[(2, 1)]" (some [.itup [.vint 2, .vint 1]])]).2.2 (by decide))⟩

/-- C3: the scorer's equivalence is order-insensitive on both axes and
uses set semantics: permuting the rows of a parsed result, permuting the
elements inside each row tuple, or duplicating an existing row never
changes the match verdict; in particular `[(1, a), (2, b)]` matches
`[(2, b), (1, a)]` and `(x, 1)` matches `(1, x)`. -/
theorem c3_order_insensitive :
    (∀ l₁ l₂ : List Item, l₁.Perm l₂ →
      (∀ e, entryMatches (.eset (entryOfItems l₁)) e =
        entryMatches (.eset (entryOfItems l₂)) e) ∧
      (∀ g, entryMatches g (some (.eset (entryOfItems l₁))) =
        entryMatches g (some (.eset (entryOfItems l₂))))) ∧
    (∀ (x : Item) (l : List Item), x ∈ l → entryOfItems (x :: l) = entryOfItems l) ∧
    (∀ l₁ l₂ : List Item,
      List.Forall₂ (fun a b => (tupOfItem a).Perm (tupOfItem b)) l₁ l₂ →
      (∀ e, entryMatches (.eset (entryOfItems l₁)) e =
        entryMatches (.eset (entryOfItems l₂)) e) ∧
      (∀ g, entryMatches g (some (.eset (entryOfItems l₁))) =
        entryMatches g (some (.eset (entryOfItems l₂))))) ∧
    entryMatches (.eset (entryOfItems [.itup [.vint 1, .vstr "a"], .itup [.vint 2, .vstr "b"]]))
      (some (.eset (entryOfItems [.itup [.vint 2, .vstr "b"], .itup [.vint 1, .vstr "a"]]))) =
      true ∧
    entryMatches (.eset (entryOfItems [.itup [.vstr "x", .vint 1]]))
      (some (.eset (entryOfItems [.itup [.vint 1, .vstr "x"]]))) = true := by
  refine ⟨fun l₁ l₂ hp => ?_, fun x l hx => ?_, fun l₁ l₂ hf => ?_, by decide, by decide⟩
  · have he : entryOfItems l₁ = entryOfItems l₂ :=
      List.toFinset_eq_of_perm _ _ (hp.map normLine)
    exact ⟨fun e => by rw [he], fun g => by rw [he]⟩
  · have hmem : normLine x ∈ (l.map normLine).toFinset := by
      simp only [List.mem_toFinset, List.mem_map]
      exact ⟨x, hx, rfl⟩
    simp only [entryOfItems, List.map_cons, List.toFinset_cons]
    exact Finset.insert_eq_self.mpr hmem
  · have hi := image_ntoi_eq_of_forall2 hf
    exact ⟨entryMatches_congr_gold hi, entryMatches_congr_pred hi⟩

/-- Witness for C3: the claim's example rows, with the row permutation
and the per-tuple permutations given as explicit terms. -/
theorem c3_witness :
    (entryMatches
      (.eset (entryOfItems [.itup [.vint 1, .vstr "a"], .itup [.vint 2, .vstr "b"]]))
      (some (.eset (entryOfItems [.itup [.vint 2, .vstr "b"], .itup [.vint 1, .vstr "a"]]))) =
     entryMatches
      (.eset (entryOfItems [.itup [.vint 2, .vstr "b"], .itup [.vint 1, .vstr "a"]]))
      (some (.eset (entryOfItems [.itup [.vint 2, .vstr "b"], .itup [.vint 1, .vstr "a"]])))) ∧
    (entryMatches
      (.eset (entryOfItems [.itup [.vstr "x", .vint 1]]))
      (some (.eset (entryOfItems [.itup [.vint 1, .vstr "x"]]))) =
     entryMatches
      (.eset (entryOfItems [.itup [.vint 1, .vstr "x"]]))
      (some (.eset (entryOfItems [.itup [.vint 1, .vstr "x"]])))) :=
  ⟨(c3_order_insensitive.1 _ _ (List.Perm.swap _ _ _)).1 _,
   (c3_order_insensitive.2.2.1 [.itup [.vstr "x", .vint 1]] [.itup [.vint 1, .vstr "x"]]
      (by refine List.Forall₂.cons ?_ List.Forall₂.nil
          exact List.Perm.swap _ _ _)).1 _⟩

/-- C5 (amended): the SQLite executor writes exactly one
`index<TAB>result-or-Error` line per completed task, with all input
indices preserved and lines sorted by ascending index regardless of
completion order.  (The claim as stated also covers the Postgres
executor, which violates it — see the counterexample.) -/
theorem c5_executor_output_amended :
    ∀ (tasks : List STask) (runOne : STask → SOutcome) (completed : List SRes),
      completed.Perm (tasks.map (fun t => (t.index, runOne t))) →
      (run_sql_parallel_output completed).length = tasks.length ∧
      ((completed.insertionSort sresLe).map Prod.fst).Perm (tasks.map STask.index) ∧
      List.Sorted (· ≤ ·) ((completed.insertionSort sresLe).map Prod.fst) ∧
      (∀ line ∈ run_sql_parallel_output completed,
        ∃ r, r ∈ completed ∧ line = formatSqliteLine r) ∧
      (∀ (i : Int) (d : String),
        formatSqliteLine (i, .ok d) = toString i ++ "\t" ++ d ++ "\n") ∧
      (∀ (i : Int) (m : String),
        formatSqliteLine (i, .err m) = toString i ++ "\tError: " ++ m ++ "\n") := by
  intro tasks runOne completed hperm
  have hps := List.perm_insertionSort sresLe completed
  refine ⟨?_, ?_, ?_, ?_, fun i d => rfl, fun i m => rfl⟩
  · calc (run_sql_parallel_output completed).length
        = (completed.insertionSort sresLe).length := List.length_map _ _
      _ = completed.length := List.length_insertionSort _ _
      _ = (tasks.map (fun t => (t.index, runOne t))).length := hperm.length_eq
      _ = tasks.length := List.length_map _ _
  · refine (hps.map Prod.fst).trans ?_
    have := hperm.map Prod.fst
    simpa [List.map_map, Function.comp] using this
  · have hs := List.sorted_insertionSort sresLe completed
    rw [List.Sorted, List.pairwise_map]
    exact hs
  · intro line hline
    simp only [run_sql_parallel_output, List.mem_map] at hline
    obtain ⟨r, hr, rfl⟩ := hline
    exact ⟨r, (List.mem_insertionSort sresLe).mp hr, rfl⟩

/-- Witness for C5's amended theorem: two tasks completing in reversed
order still produce two output lines. -/
theorem c5_witness :
    (run_sql_parallel_output
      [((1 : Int), SOutcome.ok "[(1,)]"), ((0 : Int), SOutcome.err "no such table")]).length =
      2 :=
  (c5_executor_output_amended
    [STask.mk 0 "SELECT 1" "db", STask.mk 1 "SELECT 2" "db"]
    (fun t => if t.index = 0 then .err "no such table" else .ok "[(1,)]")
    [((1 : Int), SOutcome.ok "[(1,)]"), ((0 : Int), SOutcome.err "no such table")]
    (List.Perm.swap _ _ _)).1

/-- C5 counterexample: the Postgres executor, cited by the claim,
violates the output contract.  A one-task batch whose query raises an
exception produces a four-line record of the form
`Index 0: / Error: ... / Original SQL: ... / Modified SQL: ...`, not a
single `index<TAB>Error: ...` line. -/
theorem c5_counterexample :
    run_postgres_output [PTask.mk "0" "SELECT 1" "db"] (fun _ => .err "boom" "") =
      "Index 0:\nError: boom\nOriginal SQL: SELECT 1\nModified SQL: \n" ∧
    ((run_postgres_output [PTask.mk "0" "SELECT 1" "db"]
        (fun _ => .err "boom" "")).toList.filter (fun c => c == '\n')).length = 4 ∧
    leadsWith "0\t".toList
      (run_postgres_output [PTask.mk "0" "SELECT 1" "db"]
        (fun _ => .err "boom" "")).toList = false :=
  ⟨by decide, by decide, by decide⟩

/-- C6: a task whose `db_id` failed migration is never submitted to an
execution worker (no phase-2 task carries that `db_id`) and instead
appears in the results and the output file as an error entry referencing
the migration failure, in both the MySQL and the Oracle orchestrators. -/
theorem c6_migration_short_circuit :
    ∀ (questions : List Query) (failed : List String) (completed : List ExecRes)
      (q : Query), q ∈ questions → failed.contains q.2.2 = true →
      q ∉ executionTasks questions failed ∧
      (∀ t ∈ executionTasks questions failed, t.2.2 ≠ q.2.2) ∧
      (q.1, false, mysqlMigrationMsg q.2.2) ∈
        phase2AllResults mysqlMigrationMsg questions failed completed ∧
      (toString q.1 ++ "\tError: " ++ mysqlMigrationMsg q.2.2 ++ "\n") ∈
        phase2Output mysqlMigrationMsg questions failed completed ∧
      (q.1, false, oracleMigrationMsg q.2.2) ∈
        phase2AllResults oracleMigrationMsg questions failed completed ∧
      (toString q.1 ++ "\tError: " ++ oracleMigrationMsg q.2.2 ++ "\n") ∈
        phase2Output oracleMigrationMsg questions failed completed := by
  intro questions failed completed q hq hfail
  have hmemMy : (q.1, false, mysqlMigrationMsg q.2.2) ∈
      phase2AllResults mysqlMigrationMsg questions failed completed := by
    refine List.mem_append_right _ ?_
    simp only [migrationErrorEntries, List.mem_map, List.mem_filter]
    exact ⟨q, ⟨hq, hfail⟩, rfl⟩
  have hmemOr : (q.1, false, oracleMigrationMsg q.2.2) ∈
      phase2AllResults oracleMigrationMsg questions failed completed := by
    refine List.mem_append_right _ ?_
    simp only [migrationErrorEntries, List.mem_map, List.mem_filter]
    exact ⟨q, ⟨hq, hfail⟩, rfl⟩
  refine ⟨?_, ?_, hmemMy, ?_, hmemOr, ?_⟩
  · intro hmem
    rw [executionTasks, List.mem_filter] at hmem
    rw [hfail] at hmem
    exact absurd hmem.2 (by decide)
  · intro t ht heq
    rw [executionTasks, List.mem_filter] at ht
    rw [heq, hfail] at ht
    exact absurd ht.2 (by decide)
  · simp only [phase2Output, List.mem_map]
    exact ⟨(q.1, false, mysqlMigrationMsg q.2.2),
      (List.mem_insertionSort execResLe).mpr hmemMy, rfl⟩
  · simp only [phase2Output, List.mem_map]
    exact ⟨(q.1, false, oracleMigrationMsg q.2.2),
      (List.mem_insertionSort execResLe).mpr hmemOr, rfl⟩

/-- Witness for C6 at a concrete batch: one query on the failed `dbX`. -/
theorem c6_witness :
    ((0 : Int), false, mysqlMigrationMsg "dbX") ∈
      phase2AllResults mysqlMigrationMsg [((0 : Int), "SELECT 1", "dbX")] ["dbX"] [] ∧
    ((0 : Int), "SELECT 1", "dbX") ∉ executionTasks [((0 : Int), "SELECT 1", "dbX")] ["dbX"] :=
  ⟨(c6_migration_short_circuit [((0 : Int), "SELECT 1", "dbX")] ["dbX"] []
      ((0 : Int), "SELECT 1", "dbX") (List.mem_singleton.mpr rfl) (by decide)).2.2.1,
   (c6_migration_short_circuit [((0 : Int), "SELECT 1", "dbX")] ["dbX"] []
      ((0 : Int), "SELECT 1", "dbX") (List.mem_singleton.mpr rfl) (by decide)).1⟩

/-- C7 (amended): the MySQL migrator falls back to row-by-row insertion
on bulk failure, inserting exactly the individually-succeeding rows and
never aborting; the Oracle migrator has no fallback and aborts the whole
database's migration on a bulk failure; the SQL Server migrator skips
the whole table. -/
theorem c7_bulk_fallback_amended :
    (∀ (rows : List Row) (bulkOk : Bool) (rowOk : Row → Bool),
      (∀ r ∈ mysqlTableInsert rows bulkOk rowOk, r ∈ rows) ∧
      (bulkOk = false → mysqlTableInsert rows bulkOk rowOk = rows.filter rowOk) ∧
      (bulkOk = false → ∀ r ∈ mysqlTableInsert rows bulkOk rowOk, rowOk r = true)) ∧
    (∀ (tables : List (List Row)) (bulkOk : List Row → Bool),
      (∃ t ∈ tables, t ≠ [] ∧ bulkOk t = false) →
      oracleMigrateTables bulkOk tables = .error "bulk insert failed") ∧
    (∀ rows : List Row, sqlserverTableInsert rows false = []) := by
  refine ⟨fun rows bulkOk rowOk => ⟨?_, ?_, ?_⟩, fun tables bulkOk hw => ?_, fun rows => ?_⟩
  · intro r hr
    by_cases he : rows.isEmpty
    · simp [mysqlTableInsert, he] at hr
    · by_cases hb : bulkOk
      · simpa [mysqlTableInsert, he, hb] using hr
      · rw [mysqlTableInsert, if_neg (by simp [he]), if_neg (by simp [hb])] at hr
        exact (List.mem_filter.mp hr).1
  · intro hb
    subst hb
    by_cases he : rows.isEmpty
    · have : rows = [] := List.isEmpty_iff.mp he
      simp [mysqlTableInsert, this]
    · simp [mysqlTableInsert, he]
  · intro hb r hr
    subst hb
    by_cases he : rows.isEmpty
    · simp [mysqlTableInsert, he] at hr
    · rw [mysqlTableInsert, if_neg (by simp [he]), if_neg (by simp)] at hr
      exact (List.mem_filter.mp hr).2
  · induction tables with
    | nil => obtain ⟨w, hw, _⟩ := hw; cases hw
    | cons t ts ih =>
      obtain ⟨w, hwmem, hne, hb⟩ := hw
      rcases List.mem_cons.mp hwmem with rfl | hwts
      · have he : ¬ w.isEmpty := by simpa [List.isEmpty_iff] using hne
        rw [oracleMigrateTables, if_neg he, if_neg (by simp [hb])]
      · by_cases he : t.isEmpty
        · rw [oracleMigrateTables, if_pos he, ih ⟨w, hwts, hne, hb⟩]
          rfl
        · by_cases hbt : bulkOk t
          · rw [oracleMigrateTables, if_neg he, if_pos hbt, ih ⟨w, hwts, hne, hb⟩]
            rfl
          · rw [oracleMigrateTables, if_neg he, if_neg hbt]
  · by_cases he : rows.isEmpty <;> simp [sqlserverTableInsert, he]

/-- Witness for C7's amended theorem at concrete tables. -/
theorem c7_witness :
    mysqlTableInsert [(1 : Row), 2, 3] false (fun r => decide (r ≤ 2)) = [1, 2] ∧
    oracleMigrateTables (fun t => decide (t.length ≤ 1)) [[(5 : Row)], [6, 7]] =
      .error "bulk insert failed" := by
  constructor
  · rw [(c7_bulk_fallback_amended.1 [(1 : Row), 2, 3] false (fun r => decide (r ≤ 2))).2.1 rfl]
    decide
  · exact c7_bulk_fallback_amended.2.1 [[(5 : Row)], [6, 7]] _
      ⟨[6, 7], by decide, by decide, by decide⟩

/-- C7 counterexample: the claim asserts the fallback for every engine's
migrator, but the Oracle migrator aborts the whole database's migration
when the bulk insert of a table's rows fails, instead of falling back to
row-by-row insertion as the MySQL migrator does on the same data. -/
theorem c7_counterexample :
    oracleMigrateTables (fun _ => false) [[(1 : Row), 2]] = .error "bulk insert failed" ∧
    mysqlTableInsert [(1 : Row), 2] false (fun r => decide (r = 1)) = [1] :=
  ⟨rfl, by decide⟩

end ExeSql
